import Mathlib

/-!
Verification of `docs/conf.py` (Sphinx configuration script of the
posix-cpp-timer repository).

The script defines one function, `configureDoxyfile(input_dir, output_dir)`,
which reads the file `Doxyfile.in`, performs

    filedata = filedata.replace('@DOXYGEN_INPUT_DIR@', input_dir)
    filedata = filedata.replace('@DOXYGEN_OUTPUT_DIR@', output_dir)

and writes the result to `Doxyfile`.  At top level the script checks
`os.environ.get('READTHEDOCS', None) == 'True'`; when true it calls
`configureDoxyfile('../include', 'build')`, runs `subprocess.call('doxygen',
shell=True)` (discarding the exit status) and sets
`breathe_projects['posixcpptimer'] = 'build' + '/xml'`.  Afterwards, in the
Breathe configuration section, it unconditionally sets
`breathe_projects['posixcpptimer'] = '../build/docs/doxygen/xml'`, and
assigns a number of static configuration values.

File contents and directory arguments are modelled as `List Char`
(conf.py handles text strings; every byte of the template is a character of
the list).  The file system is a partial map from file names to contents.
-/

/-- Python's `str.replace(old, new)` for non-empty `old`, written with an
explicit skip counter so that the recursion is structural on the scanned
list: at skip `0` the scanner tests whether `old` starts here; on a match it
emits `new` and skips the remaining `old.length - 1` characters (the head
was consumed by the pattern match), never rescanning `new`; otherwise it
copies one character.  This is exactly CPython's left-to-right,
non-overlapping, no-rescan semantics. -/
def replAux (old new : List Char) : Nat → List Char → List Char
  | _, [] => []
  | Nat.succ k, _ :: rest => replAux old new k rest
  | 0, c :: rest =>
    if old.isPrefixOf (c :: rest) then new ++ replAux old new (old.length - 1) rest
    else c :: replAux old new 0 rest

/-- Python's `str.replace('', new)`: `new` is inserted before every
character and at the end (`'ab'.replace('', 'X') == 'XaXbX'`). -/
def interleave (new : List Char) : List Char → List Char
  | [] => new
  | c :: rest => new ++ c :: interleave new rest

/-- Python `s.replace(old, new)` on character lists. -/
def pyReplace (old new s : List Char) : List Char :=
  match old with
  | [] => interleave new s
  | _ :: _ => replAux old new 0 s

/-- The literal placeholder `'@DOXYGEN_INPUT_DIR@'` from conf.py line 24. -/
def inputToken : List Char := "@DOXYGEN_INPUT_DIR@".data

/-- The literal placeholder `'@DOXYGEN_OUTPUT_DIR@'` from conf.py line 25. -/
def outputToken : List Char := "@DOXYGEN_OUTPUT_DIR@".data

/-- An occurrence of the output token whose final `'@'` simultaneously
starts an occurrence of the input token (the two occurrences overlap in one
character).  Templates containing this pattern are the one case where the
two sequential `replace` calls pick the input-token occurrence and destroy
the overlapping output-token occurrence. -/
def overlapPattern : List Char := outputToken ++ inputToken.drop 1

/-- The input token without its leading `'@'`; `inputToken = '@' :: inputTokenTail`. -/
def inputTokenTail : List Char := "DOXYGEN_INPUT_DIR@".data

/-- The output token without its leading `'@'`; `outputToken = '@' :: outputTokenTail`. -/
def outputTokenTail : List Char := "DOXYGEN_OUTPUT_DIR@".data

/-- The output token without either `'@'`: its 18 interior characters,
none of which is `'@'`. -/
def outputTokenMid : List Char := "DOXYGEN_OUTPUT_DIR".data

/-- `occursB w s` decides whether `w` occurs as a contiguous substring of
`s` (Python's `w in s`). -/
def occursB (w : List Char) : List Char → Bool
  | [] => w.isPrefixOf []
  | c :: rest => w.isPrefixOf (c :: rest) || occursB w rest

/-- A file system: file names to contents.  conf.py touches only
`Doxyfile.in` and `Doxyfile`, both relative to the working directory. -/
abbrev FS := String → Option (List Char)

/-- `open(name, 'w')` followed by `write(content)`: truncating write. -/
def fsWrite (fs : FS) (name : String) (content : List Char) : FS :=
  fun n => if n = name then some content else fs n

/-- The only failure conf.py can raise in our model: `open('Doxyfile.in')`
on a missing file (Python `FileNotFoundError`).  conf.py installs no
handler, so it propagates. -/
inductive PyError where
  | fileNotFound : PyError
deriving DecidableEq

deriving instance DecidableEq for Except

/-- conf.py lines 19-28:

    def configureDoxyfile(input_dir, output_dir):
        with open('Doxyfile.in', 'r') as file:
            filedata = file.read()
        filedata = filedata.replace('@DOXYGEN_INPUT_DIR@', input_dir)
        filedata = filedata.replace('@DOXYGEN_OUTPUT_DIR@', output_dir)
        with open('Doxyfile', 'w') as file:
            file.write(filedata)
-/
def configureDoxyfile (input_dir output_dir : List Char) (fs : FS) :
    Except PyError FS :=
  match fs "Doxyfile.in" with
  | none => Except.error PyError.fileNotFound
  | some filedata =>
    let d1 := pyReplace inputToken input_dir filedata
    let d2 := pyReplace outputToken output_dir d1
    Except.ok (fsWrite fs "Doxyfile" d2)

/-- The `Doxyfile` entry of the file system produced by a
`configureDoxyfile` call (the content the call writes). -/
def writtenDoxyfile (input_dir output_dir : List Char) (fs : FS) :
    Except PyError (Option (List Char)) :=
  (configureDoxyfile input_dir output_dir fs).map (fun f => f "Doxyfile")

/-- A Python dict update `m[k] = v` for the `breathe_projects` dict. -/
def mapSet (m : String → Option String) (k v : String) :
    String → Option String :=
  fun x => if x = k then some v else m x

/-- The static configuration assignments of conf.py (lines 44 onwards):
every unconditional `name = literal` in the file. -/
structure SphinxConfig where
  project : String
  copyright : String
  author : String
  master_doc : String
  primary_domain : String
  breathe_domain_by_extension : List (String × String)
  extensions : List String
  templates_path : List String
  exclude_patterns : List String
  html_theme : String
  html_static_path : List String
  breathe_default_project : String
  pdf_documents : List (String × String × String × String)
  pdf_stylesheets : List String
  pdf_style_path : List String
  pdf_header : String
  pdf_footer : String
  pdf_inline_footnotes : Bool
  pdf_use_coverpage : Bool
  pdf_cover_template : String
  pdf_page_template : String
  pdf_toc_depth : Nat
  pdf_use_numbered_links : Bool
  pdf_fit_background_mode : String
  pdf_repeat_table_rows : Bool
deriving DecidableEq

/-- The concrete values conf.py assigns to its static options. -/
def sphinxStaticConfig : SphinxConfig where
  project := "posixcpptimer"
  copyright := "2021, Andrei Mironenko"
  author := "Andrei Mironenko"
  master_doc := "index"
  primary_domain := "cpp"
  breathe_domain_by_extension := [("h", "cpp")]
  extensions := ["breathe", "sphinx.ext.autodoc", "rst2pdf.pdfbuilder"]
  templates_path := ["_templates"]
  exclude_patterns := ["_build", "Thumbs.db", ".DS_Store"]
  html_theme := "sphinx_rtd_theme"
  html_static_path := []
  breathe_default_project := "posixcpptimer"
  pdf_documents :=
    [("index", "posixcpptimer", "Posix C++17 timer wrapper library",
      "Andrei Mironenko")]
  pdf_stylesheets := ["sphinx", "kerning", "a4"]
  pdf_style_path := [".", "_styles"]
  pdf_header := "section ###Section### ###SectNum###"
  pdf_footer := "Page ###Page###"
  pdf_inline_footnotes := true
  pdf_use_coverpage := true
  pdf_cover_template := "sphinxcover.tmpl"
  pdf_page_template := "cutePage"
  pdf_toc_depth := 9999
  pdf_use_numbered_links := false
  pdf_fit_background_mode := "scale"
  pdf_repeat_table_rows := true

/-- Observable state of one run of conf.py: the file system after the run,
the final `breathe_projects` dict, the sequence of assignments made to it
(in program order), the shell commands passed to `subprocess.call`, the
argument pairs of `configureDoxyfile` calls, and the static options. -/
structure ScriptResult where
  fs : FS
  breathe_projects : String → Option String
  registrations : List (String × String)
  subprocessCalls : List String
  configureCalls : List (List Char × List Char)
  config : SphinxConfig

/-- conf.py top level.  `env` is `os.environ.get('READTHEDOCS', None)`
(`none` models an unset variable); `doxygenExit` is the exit status the
`doxygen` subprocess would return — `subprocess.call` yields it and the
script discards it.  Lines 31-39 then line 86 (`breathe_projects` overwrite)
and the static assignments. -/
def runScript (env : Option String) (fs0 : FS) (doxygenExit : Int) :
    Except PyError ScriptResult :=
  let read_the_docs_build : Bool := env == some "True"
  let step : Except PyError
      (FS × (String → Option String) × List (String × String) ×
        List String × List (List Char × List Char)) :=
    if read_the_docs_build then
      let input_dir := "../include"
      let output_dir := "build"
      match configureDoxyfile input_dir.data output_dir.data fs0 with
      | Except.error e => Except.error e
      | Except.ok fs1 =>
        let _ret := doxygenExit
        Except.ok (fs1,
          mapSet (fun _ => none) "posixcpptimer" (output_dir ++ "/xml"),
          [("posixcpptimer", output_dir ++ "/xml")],
          ["doxygen"],
          [(input_dir.data, output_dir.data)])
    else
      Except.ok (fs0, fun _ => none, [], [], [])
  match step with
  | Except.error e => Except.error e
  | Except.ok (fs1, b1, regs, calls, confCalls) =>
    Except.ok
      { fs := fs1
        breathe_projects := mapSet b1 "posixcpptimer" "../build/docs/doxygen/xml"
        registrations := regs ++ [("posixcpptimer", "../build/docs/doxygen/xml")]
        subprocessCalls := calls
        configureCalls := confCalls
        config := sphinxStaticConfig }

/-- Constructor test for script completion (the run did not raise). -/
def scriptOk (r : Except PyError ScriptResult) : Bool :=
  match r with
  | Except.ok _ => true
  | Except.error _ => false

/-- `specSimultaneousSubst` below, with the same skip-counter device as
`replAux` so that it is structurally recursive. -/
def simulAux (input_dir output_dir : List Char) : Nat → List Char → List Char
  | _, [] => []
  | Nat.succ k, _ :: rest => simulAux input_dir output_dir k rest
  | 0, c :: rest =>
    if inputToken.isPrefixOf (c :: rest) then
      input_dir ++ simulAux input_dir output_dir (inputToken.length - 1) rest
    else if outputToken.isPrefixOf (c :: rest) then
      output_dir ++ simulAux input_dir output_dir (outputToken.length - 1) rest
    else c :: simulAux input_dir output_dir 0 rest

/-- Modelled from the spec's words, for comparison with the code: "the
output content must have both tokens replaced and be byte-identical to the
input elsewhere".  A single left-to-right scan that replaces every
(leftmost, non-overlapping) occurrence of `'@DOXYGEN_INPUT_DIR@'` by
`input_dir` and of `'@DOXYGEN_OUTPUT_DIR@'` by `output_dir`, and copies
every other byte unchanged.  (At any one position at most one of the two
tokens can match, since they differ at index 9.) -/
def specSimultaneousSubst (input_dir output_dir s : List Char) : List Char :=
  simulAux input_dir output_dir 0 s

/-- A file system holding only the template `Doxyfile.in`, with content `t`. -/
def fsWith (t : List Char) : FS :=
  fun n => if n = "Doxyfile.in" then some t else none

/-- The empty file system: every `open(..., 'r')` fails. -/
def fsEmpty : FS := fun _ => none

/-- A realistic template: both placeholders, no other `'@'`, no overlap. -/
def sampleTemplate : List Char :=
  "INPUT = @DOXYGEN_INPUT_DIR@\nOUTPUT_DIRECTORY = @DOXYGEN_OUTPUT_DIR@\n".data

/-- Template refuting C1 with an `input_dir` that contains the output
token: both tokens present, one right after the other. -/
def ceDirsTemplate : List Char := inputToken ++ outputToken

/-- Template refuting C1 through overlapping token occurrences: the output
token's final `'@'` is also the input token's first `'@'`. -/
def ceOverlapTemplate : List Char := overlapPattern

/-- Template refuting C1 for an empty `input_dir`: deleting the input-token
occurrence splices `'@DOXY'` and `'GEN_OUTPUT_DIR@'` into a fresh output
token; a standalone output token is appended so both tokens occur. -/
def ceEmptyDirTemplate : List Char :=
  "@DOXY".data ++ inputToken ++ "GEN_OUTPUT_DIR@".data ++ outputToken

/-- Placeholder-free content used by several witnesses. -/
def helloContent : List Char := "hello".data

/-- One-character placeholder-free content used by several witnesses. -/
def xContent : List Char := "x".data

/-- The file system `configureDoxyfile "a" "b"` produces from `fsWith
xContent`: the token-free template is written to `Doxyfile` unchanged. -/
def fsAfterX : FS := fsWrite (fsWith xContent) "Doxyfile" xContent

/-- A file system that agrees with `fsWith xContent` on `Doxyfile.in` but
differs on every other name (used to witness read-dependence claims). -/
def fsNoisy : FS :=
  fun n => if n = "Doxyfile.in" then some xContent else some "y".data

/-- The result of `runScript none fsEmpty 0` (fallback branch), spelled
out for the C8 witness. -/
def fallbackResult : ScriptResult where
  fs := fsEmpty
  breathe_projects := mapSet (fun _ => none) "posixcpptimer" "../build/docs/doxygen/xml"
  registrations := [("posixcpptimer", "../build/docs/doxygen/xml")]
  subprocessCalls := []
  configureCalls := []
  config := sphinxStaticConfig

example : pyReplace "aa".data "b".data "aaa".data = "ba".data := by decide
example : pyReplace "ab".data "x".data "abab".data = "xx".data := by decide
example : pyReplace "".data "X".data "ab".data = "XaXbX".data := by decide
example : occursB "ab".data "xaby".data = true := by decide
example : occursB "ab".data "xay".data = false := by decide

/-! ## Basic lemmas about `isPrefixOf`, `occursB`, `replAux`, `pyReplace` -/

theorem isPrefixOf_exists (w s : List Char) :
    w.isPrefixOf s = true ↔ ∃ u, s = w ++ u := by
  induction w generalizing s with
  | nil => simp [List.isPrefixOf]
  | cons a as ih =>
    cases s with
    | nil =>
      simp [List.isPrefixOf]
    | cons c cs =>
      constructor
      · intro h
        rw [show (a :: as).isPrefixOf (c :: cs) = ((a == c) && as.isPrefixOf cs)
              from rfl, Bool.and_eq_true, beq_iff_eq] at h
        obtain ⟨rfl, h2⟩ := h
        obtain ⟨u, rfl⟩ := (ih cs).mp h2
        exact ⟨u, rfl⟩
      · rintro ⟨u, h⟩
        injection h with h1 h2
        subst h1
        rw [show (c :: as).isPrefixOf (c :: cs) = ((c == c) && as.isPrefixOf cs)
              from rfl, Bool.and_eq_true, beq_iff_eq]
        exact ⟨rfl, (ih cs).mpr ⟨u, h2⟩⟩

theorem isPrefixOf_append_self (w u : List Char) :
    w.isPrefixOf (w ++ u) = true :=
  (isPrefixOf_exists w _).mpr ⟨u, rfl⟩

theorem isPrefixOf_append_of_le (w a b : List Char) (h : w.length ≤ a.length) :
    w.isPrefixOf (a ++ b) = w.isPrefixOf a := by
  induction w generalizing a with
  | nil => simp [List.isPrefixOf]
  | cons x w' ih =>
    cases a with
    | nil => simp at h
    | cons y a' =>
      have hh : w'.length ≤ a'.length := by
        simp only [List.length_cons] at h
        omega
      show ((x == y) && w'.isPrefixOf (a' ++ b)) = ((x == y) && w'.isPrefixOf a')
      rw [ih a' hh]

theorem replAux_skip (old new w u : List Char) :
    replAux old new w.length (w ++ u) = replAux old new 0 u := by
  induction w with
  | nil => rfl
  | cons c w' ih =>
    show replAux old new (Nat.succ w'.length) (c :: (w' ++ u)) = replAux old new 0 u
    rw [show replAux old new (Nat.succ w'.length) (c :: (w' ++ u))
          = replAux old new w'.length (w' ++ u) from rfl]
    exact ih

theorem pyReplace_nil (old new : List Char) (h : old ≠ []) :
    pyReplace old new [] = [] := by
  cases old with
  | nil => exact absurd rfl h
  | cons a as => rfl

theorem pyReplace_neg (old new : List Char) (c : Char) (rest : List Char)
    (h : old.isPrefixOf (c :: rest) = false) :
    pyReplace old new (c :: rest) = c :: pyReplace old new rest := by
  cases old with
  | nil => simp [List.isPrefixOf] at h
  | cons a as =>
    show replAux (a :: as) new 0 (c :: rest) = c :: replAux (a :: as) new 0 rest
    rw [replAux, if_neg (by simp [h])]

theorem pyReplace_pos (old new s : List Char) (hold : old ≠ [])
    (h : old.isPrefixOf s = true) :
    pyReplace old new s = new ++ pyReplace old new (s.drop old.length) := by
  obtain ⟨u, rfl⟩ := (isPrefixOf_exists old s).mp h
  cases old with
  | nil => exact absurd rfl hold
  | cons a as =>
    have hdrop : ((a :: as) ++ u).drop (a :: as).length = u := List.drop_left _ _
    rw [hdrop]
    show replAux (a :: as) new 0 (a :: (as ++ u)) = new ++ replAux (a :: as) new 0 u
    have hpre : (a :: as).isPrefixOf (a :: (as ++ u)) = true :=
      isPrefixOf_append_self (a :: as) u
    rw [replAux, if_pos hpre]
    have hlen : (a :: as).length - 1 = as.length := by
      simp [List.length_cons]
    rw [hlen, replAux_skip]

theorem occursB_false_head (w : List Char) (c : Char) (rest : List Char)
    (h : occursB w (c :: rest) = false) :
    w.isPrefixOf (c :: rest) = false ∧ occursB w rest = false := by
  rw [show occursB w (c :: rest) = (w.isPrefixOf (c :: rest) || occursB w rest)
        from rfl, Bool.or_eq_false_iff] at h
  exact h

theorem occursB_drop (w t : List Char) (n : Nat) (h : occursB w t = false) :
    occursB w (t.drop n) = false := by
  induction n generalizing t with
  | zero => simpa using h
  | succ n ih =>
    cases t with
    | nil => simpa using h
    | cons c rest =>
      rw [List.drop_succ_cons]
      exact ih rest (occursB_false_head w c rest h).2

theorem occursB_true_of_isPrefixOf (w t : List Char)
    (h : w.isPrefixOf t = true) : occursB w t = true := by
  cases t with
  | nil => simpa [occursB] using h
  | cons c rest => simp [occursB, h]

theorem pyReplace_id (old new t : List Char) (hold : old ≠ [])
    (h : occursB old t = false) : pyReplace old new t = t := by
  induction t with
  | nil => exact pyReplace_nil old new hold
  | cons c rest ih =>
    obtain ⟨h1, h2⟩ := occursB_false_head old c rest h
    rw [pyReplace_neg old new c rest h1, ih h2]

theorem pyReplace_walk (d : Char) (oldTail new seg Y : List Char)
    (hseg : d ∉ seg) :
    pyReplace (d :: oldTail) new (seg ++ Y)
      = seg ++ pyReplace (d :: oldTail) new Y := by
  induction seg with
  | nil => rfl
  | cons c seg' ih =>
    obtain ⟨h1, h2⟩ := not_or.mp (fun hh => hseg (List.mem_cons.mpr hh))
    have hpre : (d :: oldTail).isPrefixOf (c :: (seg' ++ Y)) = false := by
      cases hbc : (d == c) with
      | false =>
        show ((d == c) && oldTail.isPrefixOf (seg' ++ Y)) = false
        rw [hbc, Bool.false_and]
      | true => exact absurd (beq_iff_eq.mp hbc) h1
    rw [show (c :: seg') ++ Y = c :: (seg' ++ Y) from rfl,
        pyReplace_neg _ _ _ _ hpre, ih h2, List.cons_append]

theorem bool_eq_false_of_not_true (b : Bool) (h : ¬ b = true) : b = false := by
  cases b with
  | false => rfl
  | true => exact absurd rfl h

theorem isPrefixOf_cons_iff (d a : Char) (w' z : List Char) :
    (d :: w').isPrefixOf (a :: z) = true ↔ d = a ∧ w'.isPrefixOf z = true := by
  rw [show (d :: w').isPrefixOf (a :: z) = ((d == a) && w'.isPrefixOf z) from rfl,
      Bool.and_eq_true, beq_iff_eq]

theorem pyReplace_head (old new u : List Char) (hold : old ≠ []) :
    pyReplace old new (old ++ u) = new ++ pyReplace old new u := by
  rw [pyReplace_pos old new (old ++ u) hold (isPrefixOf_append_self _ _),
      List.drop_left]

/-- No run of the first replacement can manufacture output-token text in
front of characters that were not already there: if a nonempty word `w`
made only of output-token characters starts the result of replacing the
input token by `i` in `s`, and no character of `i` occurs in the output
token, then `w` already started `s` itself. -/
theorem isPrefixOf_pyReplace_window (i : List Char)
    (hi : ∀ c ∈ i, c ∉ outputToken) (hne : i ≠ []) :
    ∀ (s w : List Char), w ≠ [] → (∀ c ∈ w, c ∈ outputToken) →
      w.isPrefixOf (pyReplace inputToken i s) = true →
      w.isPrefixOf s = true := by
  intro s
  induction s with
  | nil =>
    intro w hw _ hp
    rw [pyReplace_nil _ _ (by decide)] at hp
    cases w with
    | nil => exact absurd rfl hw
    | cons d w' => simp [List.isPrefixOf] at hp
  | cons c rest ih =>
    intro w hw hwchars hp
    by_cases hin : inputToken.isPrefixOf (c :: rest) = true
    · rw [pyReplace_pos _ _ _ (by decide) hin] at hp
      cases w with
      | nil => exact absurd rfl hw
      | cons d w' =>
        cases hi2 : i with
        | nil => exact absurd hi2 hne
        | cons a i' =>
          rw [hi2, List.cons_append] at hp
          have hda : d = a := ((isPrefixOf_cons_iff _ _ _ _).mp hp).1
          have hd_in : d ∈ outputToken := hwchars d (List.mem_cons_self _ _)
          have ha_not : a ∉ outputToken := by
            have h5 := hi a
            rw [hi2] at h5
            exact h5 (List.mem_cons_self _ _)
          exact absurd (hda ▸ hd_in) ha_not
    · have hin' : inputToken.isPrefixOf (c :: rest) = false :=
        bool_eq_false_of_not_true _ hin
      rw [pyReplace_neg _ _ _ _ hin'] at hp
      cases w with
      | nil => exact absurd rfl hw
      | cons d w' =>
        rw [show (d :: w').isPrefixOf (c :: pyReplace inputToken i rest)
              = ((d == c) && w'.isPrefixOf (pyReplace inputToken i rest))
              from rfl, Bool.and_eq_true, beq_iff_eq] at hp
        obtain ⟨rfl, hp2⟩ := hp
        cases w' with
        | nil =>
          rw [show (d :: ([] : List Char)).isPrefixOf (d :: rest)
                = ((d == d) && ([] : List Char).isPrefixOf rest) from rfl]
          simp [List.isPrefixOf]
        | cons e w'' =>
          have hw'' : (e :: w'').isPrefixOf rest = true :=
            ih (e :: w'') (by simp)
              (fun x hx => hwchars x (List.mem_cons_of_mem _ hx)) hp2
          rw [show (d :: (e :: w'')).isPrefixOf (d :: rest)
                = ((d == d) && (e :: w'').isPrefixOf rest) from rfl,
              Bool.and_eq_true, beq_iff_eq]
          exact ⟨rfl, hw''⟩

/-- The first replacement walks straight over an output-token occurrence
provided the input token does not start at its final `'@'`. -/
theorem pass1_over_outputToken (i u : List Char)
    (hno : inputToken.isPrefixOf ('@' :: u) = false) :
    pyReplace inputToken i (outputToken ++ u)
      = outputToken ++ pyReplace inputToken i u := by
  have e : outputToken ++ u = '@' :: (outputTokenMid ++ ('@' :: u)) := rfl
  rw [e]
  have h0 : inputToken.isPrefixOf ('@' :: (outputTokenMid ++ ('@' :: u))) = false := by
    rw [show inputToken.isPrefixOf ('@' :: (outputTokenMid ++ ('@' :: u)))
          = (('@' == '@') && inputTokenTail.isPrefixOf (outputTokenMid ++ ('@' :: u)))
          from rfl]
    rw [isPrefixOf_append_of_le _ _ _ (by decide)]
    decide
  rw [pyReplace_neg _ _ _ _ h0]
  rw [show inputToken = '@' :: inputTokenTail from rfl]
  rw [pyReplace_walk '@' inputTokenTail i outputTokenMid ('@' :: u) (by decide)]
  have hno' : ('@' :: inputTokenTail).isPrefixOf ('@' :: u) = false := hno
  rw [pyReplace_neg _ _ _ _ hno']
  rfl

theorem simulAux_skip (i o w u : List Char) :
    simulAux i o w.length (w ++ u) = simulAux i o 0 u := by
  induction w with
  | nil => rfl
  | cons c w' ih =>
    show simulAux i o (Nat.succ w'.length) (c :: (w' ++ u)) = simulAux i o 0 u
    rw [show simulAux i o (Nat.succ w'.length) (c :: (w' ++ u))
          = simulAux i o w'.length (w' ++ u) from rfl]
    exact ih

theorem simul_in (i o u : List Char) :
    specSimultaneousSubst i o (inputToken ++ u) = i ++ specSimultaneousSubst i o u := by
  show simulAux i o 0 (inputToken ++ u) = i ++ simulAux i o 0 u
  have e : inputToken ++ u = '@' :: (inputTokenTail ++ u) := rfl
  rw [e]
  have h1 : inputToken.isPrefixOf ('@' :: (inputTokenTail ++ u)) = true :=
    isPrefixOf_append_self inputToken u
  simp only [simulAux]
  rw [if_pos h1]
  rfl

theorem simul_out (i o u : List Char) :
    specSimultaneousSubst i o (outputToken ++ u) = o ++ specSimultaneousSubst i o u := by
  show simulAux i o 0 (outputToken ++ u) = o ++ simulAux i o 0 u
  have e : outputToken ++ u = '@' :: (outputTokenTail ++ u) := rfl
  rw [e]
  have h1 : inputToken.isPrefixOf ('@' :: (outputTokenTail ++ u)) = false := by
    rw [show inputToken.isPrefixOf ('@' :: (outputTokenTail ++ u))
          = (('@' == '@') && inputTokenTail.isPrefixOf (outputTokenTail ++ u))
          from rfl]
    rw [isPrefixOf_append_of_le _ _ _ (by decide)]
    decide
  have h2 : outputToken.isPrefixOf ('@' :: (outputTokenTail ++ u)) = true :=
    isPrefixOf_append_self outputToken u
  simp only [simulAux]
  rw [if_neg (by simp [h1]), if_pos h2]
  rfl

theorem simul_cons (i o : List Char) (c : Char) (rest : List Char)
    (h1 : inputToken.isPrefixOf (c :: rest) = false)
    (h2 : outputToken.isPrefixOf (c :: rest) = false) :
    specSimultaneousSubst i o (c :: rest) = c :: specSimultaneousSubst i o rest := by
  show simulAux i o 0 (c :: rest) = c :: simulAux i o 0 rest
  simp only [simulAux]
  rw [if_neg (by simp [h1]), if_neg (by simp [h2])]

/-- The two sequential `replace` calls of `configureDoxyfile` compute the
simultaneous one-pass substitution, provided `input_dir` is nonempty and
shares no character with the output token, and the template has no
overlapping token occurrences. -/
theorem seqSubst_eq_simulSubst (i o : List Char)
    (hi : ∀ c ∈ i, c ∉ outputToken) (hne : i ≠ []) :
    ∀ t, occursB overlapPattern t = false →
      pyReplace outputToken o (pyReplace inputToken i t)
        = specSimultaneousSubst i o t := by
  have hat : '@' ∉ i := fun hmem => (hi '@' hmem) (by decide)
  have key : ∀ n t, t.length ≤ n → occursB overlapPattern t = false →
      pyReplace outputToken o (pyReplace inputToken i t)
        = specSimultaneousSubst i o t := by
    intro n
    induction n with
    | zero =>
      intro t hlen hov
      have ht : t = [] := List.length_eq_zero.mp (Nat.le_zero.mp hlen)
      subst ht
      rw [pyReplace_nil _ _ (by decide), pyReplace_nil _ _ (by decide)]
      rfl
    | succ n ih =>
      intro t hlen hov
      by_cases hin : inputToken.isPrefixOf t = true
      · obtain ⟨u, rfl⟩ := (isPrefixOf_exists _ _).mp hin
        have hlu : u.length ≤ n := by
          rw [List.length_append] at hlen
          have h19 : 0 < inputToken.length := by decide
          omega
        have hovu : occursB overlapPattern u = false := by
          have h6 := occursB_drop overlapPattern (inputToken ++ u) inputToken.length hov
          rwa [List.drop_left] at h6
        rw [pyReplace_head _ _ _ (by decide)]
        rw [show outputToken = '@' :: outputTokenTail from rfl]
        rw [pyReplace_walk '@' outputTokenTail o i _ hat]
        have h7 := ih u hlu hovu
        rw [show outputToken = '@' :: outputTokenTail from rfl] at h7
        rw [h7, simul_in]
      · by_cases hout : outputToken.isPrefixOf t = true
        · obtain ⟨u, rfl⟩ := (isPrefixOf_exists _ _).mp hout
          have hlu : u.length ≤ n := by
            rw [List.length_append] at hlen
            have h20 : 0 < outputToken.length := by decide
            omega
          have hovu : occursB overlapPattern u = false := by
            have h6 := occursB_drop overlapPattern (outputToken ++ u) outputToken.length hov
            rwa [List.drop_left] at h6
          have hno : inputToken.isPrefixOf ('@' :: u) = false := by
            cases hx : inputToken.isPrefixOf ('@' :: u) with
            | false => rfl
            | true =>
              exfalso
              have hx' : ('@' :: inputTokenTail).isPrefixOf ('@' :: u) = true := hx
              have h8 : inputTokenTail.isPrefixOf u = true :=
                ((isPrefixOf_cons_iff _ _ _ _).mp hx').2
              obtain ⟨v, rfl⟩ := (isPrefixOf_exists _ _).mp h8
              have h9 : overlapPattern.isPrefixOf
                  (outputToken ++ (inputTokenTail ++ v)) = true := by
                have e2 : overlapPattern ++ v = outputToken ++ (inputTokenTail ++ v) := by
                  rw [show overlapPattern = outputToken ++ inputTokenTail from rfl,
                      List.append_assoc]
                rw [← e2]
                exact isPrefixOf_append_self _ _
              have h10 := occursB_true_of_isPrefixOf _ _ h9
              rw [hov] at h10
              exact Bool.noConfusion h10
          rw [pass1_over_outputToken i u hno, pyReplace_head _ _ _ (by decide),
              ih u hlu hovu, simul_out]
        · cases t with
          | nil =>
            rw [pyReplace_nil _ _ (by decide), pyReplace_nil _ _ (by decide)]
            rfl
          | cons c rest =>
            have hin' : inputToken.isPrefixOf (c :: rest) = false :=
              bool_eq_false_of_not_true _ hin
            rw [pyReplace_neg _ _ _ _ hin']
            have hout2 : outputToken.isPrefixOf (c :: pyReplace inputToken i rest) = false := by
              cases hx : outputToken.isPrefixOf (c :: pyReplace inputToken i rest) with
              | false => rfl
              | true =>
                exfalso
                have hx' : ('@' :: outputTokenTail).isPrefixOf
                    (c :: pyReplace inputToken i rest) = true := hx
                obtain ⟨hc, hx2⟩ := (isPrefixOf_cons_iff _ _ _ _).mp hx'
                have hchars : ∀ x ∈ outputTokenTail, x ∈ outputToken := by
                  intro x hxm
                  rw [show outputToken = '@' :: outputTokenTail from rfl]
                  exact List.mem_cons_of_mem _ hxm
                have hwin : outputTokenTail.isPrefixOf rest = true :=
                  isPrefixOf_pyReplace_window i hi hne rest outputTokenTail
                    (by decide) hchars hx2
                have h11 : outputToken.isPrefixOf (c :: rest) = true :=
                  (isPrefixOf_cons_iff _ _ _ _).mpr ⟨hc, hwin⟩
                exact hout h11
            rw [pyReplace_neg _ _ _ _ hout2]
            have hovr : occursB overlapPattern rest = false :=
              (occursB_false_head _ _ _ hov).2
            have hlr : rest.length ≤ n := by
              rw [List.length_cons] at hlen
              omega
            rw [ih rest hlr hovr,
                simul_cons i o c rest hin' (bool_eq_false_of_not_true _ hout)]
  intro t hov
  exact key t.length t le_rfl hov

/-! ## Shape lemmas for `configureDoxyfile` and `runScript` -/

theorem configureDoxyfile_ok (i o t : List Char) (fs : FS)
    (hread : fs "Doxyfile.in" = some t) :
    configureDoxyfile i o fs = Except.ok
      (fsWrite fs "Doxyfile" (pyReplace outputToken o (pyReplace inputToken i t))) := by
  simp only [configureDoxyfile, hread]

theorem configureDoxyfile_error (i o : List Char) (fs : FS)
    (hread : fs "Doxyfile.in" = none) :
    configureDoxyfile i o fs = Except.error PyError.fileNotFound := by
  simp only [configureDoxyfile, hread]

theorem runScript_not_rtd (env : Option String) (fs : FS) (e : Int)
    (h : (env == some "True") = false) :
    runScript env fs e = Except.ok
      { fs := fs
        breathe_projects :=
          mapSet (fun _ => none) "posixcpptimer" "../build/docs/doxygen/xml"
        registrations := [("posixcpptimer", "../build/docs/doxygen/xml")]
        subprocessCalls := []
        configureCalls := []
        config := sphinxStaticConfig } := by
  simp [runScript, h]

theorem runScript_rtd_ok (fs fs1 : FS) (e : Int)
    (hcfg : configureDoxyfile "../include".data "build".data fs = Except.ok fs1) :
    runScript (some "True") fs e = Except.ok
      { fs := fs1
        breathe_projects :=
          mapSet (mapSet (fun _ => none) "posixcpptimer" ("build" ++ "/xml"))
            "posixcpptimer" "../build/docs/doxygen/xml"
        registrations := [("posixcpptimer", "build" ++ "/xml"),
          ("posixcpptimer", "../build/docs/doxygen/xml")]
        subprocessCalls := ["doxygen"]
        configureCalls := [("../include".data, "build".data)]
        config := sphinxStaticConfig } := by
  simp [runScript, hcfg]

theorem runScript_rtd_error (fs : FS) (e : Int) (err : PyError)
    (hcfg : configureDoxyfile "../include".data "build".data fs = Except.error err) :
    runScript (some "True") fs e = Except.error err := by
  simp [runScript, hcfg]

/-! ## Claim theorems -/

/-- C4: the exit status of the doxygen subprocess invocation is not
checked: two runs of conf.py that differ only in the exit code returned by
`subprocess.call('doxygen', shell=True)` produce identical results — the
same file system, `breathe_projects` mapping and configuration values. -/
theorem C4_exit_status_never_checked (env : Option String) (fs : FS)
    (e1 e2 : Int) :
    runScript env fs e1 = runScript env fs e2 := rfl

/-- C8: whenever conf.py runs to completion, the final value of
`breathe_projects['posixcpptimer']` is the fallback path
`'../build/docs/doxygen/xml'` regardless of READTHEDOCS: the unconditional
assignment in the Breathe configuration section (line 86) overwrites the
`'build/xml'` value registered inside the READTHEDOCS branch. -/
theorem C8_final_breathe_fallback (env : Option String) (fs : FS) (e : Int)
    (st : ScriptResult) (h : runScript env fs e = Except.ok st) :
    st.breathe_projects "posixcpptimer" = some "../build/docs/doxygen/xml" := by
  cases henv : (env == some "True") with
  | false =>
    rw [runScript_not_rtd env fs e henv] at h
    have h2 := Except.ok.inj h
    subst h2
    simp [mapSet]
  | true =>
    have henv' : env = some "True" := beq_iff_eq.mp henv
    subst henv'
    cases hcfg : configureDoxyfile "../include".data "build".data fs with
    | error err =>
      rw [runScript_rtd_error fs e err hcfg] at h
      exact Except.noConfusion h
    | ok fs1 =>
      rw [runScript_rtd_ok fs fs1 e hcfg] at h
      have h2 := Except.ok.inj h
      subst h2
      simp [mapSet]

/-- Witness for C8 at a concrete run (READTHEDOCS unset, empty file
system). -/
theorem C8_witness :
    runScript none fsEmpty 0 = Except.ok fallbackResult ∧
    fallbackResult.breathe_projects "posixcpptimer"
      = some "../build/docs/doxygen/xml" :=
  ⟨rfl, C8_final_breathe_fallback none fsEmpty 0 fallbackResult rfl⟩

/-- C3: if READTHEDOCS is not exactly `"True"` (including unset, modelled
as `none`), the doxygen subprocess is never invoked, `configureDoxyfile` is
never called, the file system is untouched, and the fallback output path
`'../build/docs/doxygen/xml'` is registered as
`breathe_projects['posixcpptimer']`. -/
theorem C3_not_rtd_no_doxygen (env : Option String) (fs : FS) (e : Int)
    (h : env ≠ some "True") :
    ∃ st, runScript env fs e = Except.ok st ∧
      st.subprocessCalls = [] ∧ st.configureCalls = [] ∧
      st.breathe_projects "posixcpptimer" = some "../build/docs/doxygen/xml" ∧
      st.fs = fs := by
  have henv : (env == some "True") = false := by
    rw [beq_eq_false_iff_ne]
    exact h
  refine ⟨_, runScript_not_rtd env fs e henv, rfl, rfl, ?_, rfl⟩
  simp [mapSet]

/-- Witness for C3 with the variable unset and a nonzero would-be exit
code. -/
theorem C3_witness :
    (none : Option String) ≠ some "True" ∧
    ∃ st, runScript none fsEmpty 7 = Except.ok st ∧
      st.subprocessCalls = [] ∧ st.configureCalls = [] ∧
      st.breathe_projects "posixcpptimer" = some "../build/docs/doxygen/xml" ∧
      st.fs = fsEmpty :=
  ⟨by decide, C3_not_rtd_no_doxygen none fsEmpty 7 (by decide)⟩

/-- C2 counterexample: with READTHEDOCS exactly `"True"` and the template
present, after the whole script has run the registered value of
`breathe_projects['posixcpptimer']` is the fallback path — not the
configured output path `'build/xml'` the claim asserts. -/
theorem C2_counterexample :
    (runScript (some "True") (fsWith xContent) 0).map
        (fun st => st.breathe_projects "posixcpptimer")
      = Except.ok (some "../build/docs/doxygen/xml") ∧
    some ("../build/docs/doxygen/xml" : String) ≠ some ("build/xml" : String) := by
  decide

/-- C2 (amended): if READTHEDOCS is exactly `"True"` and `Doxyfile.in` is
readable, then during the run `'build/xml'` is registered as
`breathe_projects['posixcpptimer']` (the first of the two assignments) and
the doxygen subprocess call is attempted; the later unconditional
Breathe-configuration assignment overwrites the entry with the fallback
path, which is the final value. -/
theorem C2_registered_then_overwritten (fs : FS) (t : List Char) (e : Int)
    (hread : fs "Doxyfile.in" = some t) :
    ∃ st, runScript (some "True") fs e = Except.ok st ∧
      st.registrations = [("posixcpptimer", "build/xml"),
        ("posixcpptimer", "../build/docs/doxygen/xml")] ∧
      st.subprocessCalls = ["doxygen"] ∧
      st.breathe_projects "posixcpptimer" = some "../build/docs/doxygen/xml" := by
  have hcfg := configureDoxyfile_ok "../include".data "build".data t fs hread
  refine ⟨_, runScript_rtd_ok fs _ e hcfg, rfl, rfl, ?_⟩
  simp [mapSet]

/-- Witness for C2 (amended) at a concrete template. -/
theorem C2_witness :
    (fsWith xContent) "Doxyfile.in" = some xContent ∧
    ∃ st, runScript (some "True") (fsWith xContent) 0 = Except.ok st ∧
      st.registrations = [("posixcpptimer", "build/xml"),
        ("posixcpptimer", "../build/docs/doxygen/xml")] ∧
      st.subprocessCalls = ["doxygen"] ∧
      st.breathe_projects "posixcpptimer" = some "../build/docs/doxygen/xml" :=
  ⟨by decide, C2_registered_then_overwritten (fsWith xContent) xContent 0 (by decide)⟩

/-- C5 counterexample: a run with READTHEDOCS = `"True"`, a template with
no placeholder tokens at all, and doxygen exit code 1 completes without any
failure — the script writes the template unchanged and proceeds — refuting
the claim that missing placeholders and non-zero exit codes propagate as
uncaught failures halting the build. -/
theorem C5_counterexample :
    occursB inputToken helloContent = false ∧
    occursB outputToken helloContent = false ∧
    scriptOk (runScript (some "True") (fsWith helloContent) 1) = true ∧
    (runScript (some "True") (fsWith helloContent) 1).map
        (fun st => st.fs "Doxyfile")
      = Except.ok (some helloContent) := by
  decide

/-- C5 (amended): only the file-open failure is a real failure, and it is
indeed unhandled: with READTHEDOCS = `"True"` and `Doxyfile.in` missing the
run aborts with the propagated error.  Missing placeholder tokens cause no
failure (no validation that substitution occurred exists), and a non-zero
subprocess exit code does not alter the run at all. -/
theorem C5_only_open_failure_halts (fs : FS) (e : Int)
    (h1 : fs "Doxyfile.in" = none)
    (fs2 : FS) (t : List Char) (e2 : Int)
    (h2 : fs2 "Doxyfile.in" = some t) :
    runScript (some "True") fs e = Except.error PyError.fileNotFound ∧
    scriptOk (runScript (some "True") fs2 e2) = true ∧
    runScript (some "True") fs2 e2 = runScript (some "True") fs2 0 := by
  refine ⟨?_, ?_, rfl⟩
  · exact runScript_rtd_error fs e PyError.fileNotFound
      (configureDoxyfile_error _ _ fs h1)
  · rw [runScript_rtd_ok fs2 _ e2
      (configureDoxyfile_ok "../include".data "build".data t fs2 h2)]
    rfl

/-- Witness for C5 (amended): the empty file system halts the run; a
token-free template completes even with exit code 1. -/
theorem C5_witness :
    fsEmpty "Doxyfile.in" = none ∧
    (fsWith helloContent) "Doxyfile.in" = some helloContent ∧
    (runScript (some "True") fsEmpty 1 = Except.error PyError.fileNotFound ∧
      scriptOk (runScript (some "True") (fsWith helloContent) 1) = true ∧
      runScript (some "True") (fsWith helloContent) 1
        = runScript (some "True") (fsWith helloContent) 0) :=
  ⟨rfl, by decide,
    C5_only_open_failure_halts fsEmpty 1 rfl (fsWith helloContent) helloContent 1
      (by decide)⟩

/-- C6: a successful `configureDoxyfile` call writes only `Doxyfile`:
every other file — in particular the template `Doxyfile.in` — has exactly
the content it had before the call. -/
theorem C6_frame (i o : List Char) (fs fs2 : FS)
    (h : configureDoxyfile i o fs = Except.ok fs2) :
    fs2 "Doxyfile.in" = fs "Doxyfile.in" ∧
    ∀ n, n ≠ "Doxyfile" → fs2 n = fs n := by
  cases hread : fs "Doxyfile.in" with
  | none =>
    rw [configureDoxyfile_error i o fs hread] at h
    exact Except.noConfusion h
  | some t =>
    rw [configureDoxyfile_ok i o t fs hread] at h
    have h2 := Except.ok.inj h
    subst h2
    refine ⟨?_, ?_⟩
    · show (if ("Doxyfile.in" : String) = "Doxyfile" then
          some (pyReplace outputToken o (pyReplace inputToken i t))
        else fs "Doxyfile.in") = some t
      rw [if_neg (by decide)]
      exact hread
    · intro n hn
      show (if n = "Doxyfile" then
          some (pyReplace outputToken o (pyReplace inputToken i t))
        else fs n) = fs n
      rw [if_neg hn]

/-- Witness for C6 at a concrete call. -/
theorem C6_witness :
    configureDoxyfile "a".data "b".data (fsWith xContent) = Except.ok fsAfterX ∧
    (fsAfterX "Doxyfile.in" = (fsWith xContent) "Doxyfile.in" ∧
      ∀ n, n ≠ "Doxyfile" → fsAfterX n = (fsWith xContent) n) :=
  ⟨rfl, C6_frame "a".data "b".data (fsWith xContent) fsAfterX rfl⟩

/-- C7: substitution is the identity when no placeholder is present: if the
template contains neither token, `configureDoxyfile` writes the template to
`Doxyfile` byte-identically. -/
theorem C7_identity_without_tokens (i o t : List Char) (fs : FS)
    (hread : fs "Doxyfile.in" = some t)
    (h1 : occursB inputToken t = false) (h2 : occursB outputToken t = false) :
    ∃ fs2, configureDoxyfile i o fs = Except.ok fs2 ∧
      fs2 "Doxyfile" = some t := by
  refine ⟨_, configureDoxyfile_ok i o t fs hread, ?_⟩
  rw [pyReplace_id _ _ _ (by decide) h1, pyReplace_id _ _ _ (by decide) h2]
  show (if ("Doxyfile" : String) = "Doxyfile" then some t else fs "Doxyfile") = some t
  rw [if_pos rfl]

/-- Witness for C7 on a token-free template. -/
theorem C7_witness :
    (fsWith helloContent) "Doxyfile.in" = some helloContent ∧
    occursB inputToken helloContent = false ∧
    occursB outputToken helloContent = false ∧
    ∃ fs2, configureDoxyfile "a".data "b".data (fsWith helloContent)
        = Except.ok fs2 ∧ fs2 "Doxyfile" = some helloContent :=
  ⟨by decide, by decide, by decide,
    C7_identity_without_tokens "a".data "b".data helloContent
      (fsWith helloContent) (by decide) (by decide) (by decide)⟩

/-- C9: the two substitutions are applied sequentially, input token first,
and do not commute: with `input_dir = '@DOXYGEN_OUTPUT_DIR@'` on a template
that is exactly the input token, the token occurrence introduced by the
first replacement is itself replaced by `output_dir` (here `'X'`) in the
written output, and performing the replacements in the opposite order gives
a different result. -/
theorem C9_sequential_input_first_noncommutative :
    writtenDoxyfile outputToken "X".data (fsWith inputToken)
      = Except.ok (some "X".data) ∧
    pyReplace inputToken outputToken (pyReplace outputToken "X".data inputToken)
      ≠ pyReplace outputToken "X".data (pyReplace inputToken outputToken inputToken) := by
  decide

/-- C10: `configureDoxyfile` is deterministic and depends on nothing but
the template content and its two arguments: two file systems agreeing on
`Doxyfile.in` (even if they disagree on every other file) yield the same
outcome and the same written `Doxyfile` content; no environment variable or
other state is consulted (the function takes no other input). -/
theorem C10_deterministic (i o : List Char) (fs1 fs2 : FS)
    (h : fs1 "Doxyfile.in" = fs2 "Doxyfile.in") :
    writtenDoxyfile i o fs1 = writtenDoxyfile i o fs2 := by
  cases hc : fs2 "Doxyfile.in" with
  | none =>
    have h1 : fs1 "Doxyfile.in" = none := by rw [h, hc]
    rw [writtenDoxyfile, writtenDoxyfile, configureDoxyfile_error i o fs1 h1,
        configureDoxyfile_error i o fs2 hc]
  | some t =>
    have h1 : fs1 "Doxyfile.in" = some t := by rw [h, hc]
    rw [writtenDoxyfile, writtenDoxyfile, configureDoxyfile_ok i o t fs1 h1,
        configureDoxyfile_ok i o t fs2 hc]
    show Except.ok (fsWrite fs1 "Doxyfile" _ "Doxyfile")
      = Except.ok (fsWrite fs2 "Doxyfile" _ "Doxyfile")
    rw [show fsWrite fs1 "Doxyfile"
          (pyReplace outputToken o (pyReplace inputToken i t)) "Doxyfile"
        = some (pyReplace outputToken o (pyReplace inputToken i t)) from
          if_pos rfl,
        show fsWrite fs2 "Doxyfile"
          (pyReplace outputToken o (pyReplace inputToken i t)) "Doxyfile"
        = some (pyReplace outputToken o (pyReplace inputToken i t)) from
          if_pos rfl]

/-- Witness for C10: two file systems equal on `Doxyfile.in` but different
everywhere else give the same written content. -/
theorem C10_witness :
    (fsWith xContent) "Doxyfile.in" = fsNoisy "Doxyfile.in" ∧
    writtenDoxyfile "a".data "b".data (fsWith xContent)
      = writtenDoxyfile "a".data "b".data fsNoisy :=
  ⟨by decide, C10_deterministic "a".data "b".data (fsWith xContent) fsNoisy
    (by decide)⟩

/-- C1 counterexample: the claim as stated — for every template containing
both tokens, `configureDoxyfile(input_dir, output_dir)` writes the content
with every input-token occurrence replaced by `input_dir`, every
output-token occurrence by `output_dir`, and bytes identical elsewhere
(i.e. the simultaneous substitution) — fails in three concrete ways:
with `input_dir` containing the output token (the inserted text is
re-replaced), on a template with overlapping token occurrences (the
overlapped output token is never replaced), and with an empty `input_dir`
(deletion splices surrounding bytes into a fresh output token which is then
replaced). -/
theorem C1_counterexample :
    (occursB inputToken ceDirsTemplate = true ∧
      occursB outputToken ceDirsTemplate = true ∧
      writtenDoxyfile outputToken "X".data (fsWith ceDirsTemplate)
        ≠ Except.ok (some (specSimultaneousSubst outputToken "X".data
            ceDirsTemplate))) ∧
    (occursB inputToken ceOverlapTemplate = true ∧
      occursB outputToken ceOverlapTemplate = true ∧
      writtenDoxyfile "a".data "b".data (fsWith ceOverlapTemplate)
        ≠ Except.ok (some (specSimultaneousSubst "a".data "b".data
            ceOverlapTemplate))) ∧
    (occursB inputToken ceEmptyDirTemplate = true ∧
      occursB outputToken ceEmptyDirTemplate = true ∧
      writtenDoxyfile [] "b".data (fsWith ceEmptyDirTemplate)
        ≠ Except.ok (some (specSimultaneousSubst [] "b".data
            ceEmptyDirTemplate))) := by
  decide

/-- C1 (amended): for every template of `Doxyfile.in` that contains both
placeholder tokens, provided `input_dir` is nonempty and shares no
character with `'@DOXYGEN_OUTPUT_DIR@'` (as the script's actual argument
`'../include'` does), and the template contains no overlapping pair of an
output-token occurrence and an input-token occurrence sharing its final
`'@'`, `configureDoxyfile(input_dir, output_dir)` writes to `Doxyfile`
exactly the simultaneous left-to-right substitution of the template: every
occurrence of the input token replaced by `input_dir`, every occurrence of
the output token by `output_dir`, byte-identical to the template
elsewhere. -/
theorem C1_configureDoxyfile_replaces_both_tokens
    (i o t : List Char) (fs : FS)
    (hread : fs "Doxyfile.in" = some t)
    (hboth : occursB inputToken t = true ∧ occursB outputToken t = true)
    (hi : ∀ c ∈ i, c ∉ outputToken) (hne : i ≠ [])
    (hov : occursB overlapPattern t = false) :
    ∃ fs2, configureDoxyfile i o fs = Except.ok fs2 ∧
      fs2 "Doxyfile" = some (specSimultaneousSubst i o t) := by
  refine ⟨_, configureDoxyfile_ok i o t fs hread, ?_⟩
  rw [seqSubst_eq_simulSubst i o hi hne t hov]
  show (if ("Doxyfile" : String) = "Doxyfile" then
      some (specSimultaneousSubst i o t) else fs "Doxyfile")
    = some (specSimultaneousSubst i o t)
  rw [if_pos rfl]

/-- Witness for C1 (amended) at the script's real arguments and a
realistic template. -/
theorem C1_witness :
    (fsWith sampleTemplate) "Doxyfile.in" = some sampleTemplate ∧
    (occursB inputToken sampleTemplate = true ∧
      occursB outputToken sampleTemplate = true) ∧
    (∀ c ∈ "../include".data, c ∉ outputToken) ∧
    occursB overlapPattern sampleTemplate = false ∧
    ∃ fs2, configureDoxyfile "../include".data "build".data
        (fsWith sampleTemplate) = Except.ok fs2 ∧
      fs2 "Doxyfile" = some (specSimultaneousSubst "../include".data
        "build".data sampleTemplate) :=
  ⟨by decide, ⟨by decide, by decide⟩, by decide, by decide,
    C1_configureDoxyfile_replaces_both_tokens "../include".data "build".data
      sampleTemplate (fsWith sampleTemplate) (by decide) ⟨by decide, by decide⟩
      (by decide) (by decide) (by decide)⟩
